import Mathlib

/-!
Verification of the multi-strategy blood-report extraction engine.

The Python source is embedded shallowly:
* the regular expressions of the source are transcribed into a small
  backtracking matching engine (`RE`, `matchRE`) whose result order
  reproduces Python's leftmost search with greedy/lazy backtracking for
  the constructs the source actually uses (character classes, literals,
  sequencing, ordered alternation, greedy and lazy repetition over a
  class, optional parts, capturing groups);
* Python floats are modelled as rationals; `pyFloat` models `float(...)`
  on the decimal forms the embedded call sites can feed it (exponent,
  infinity and nan spellings are not modelled: no embedded call site can
  produce them, every argument is drawn from digit/dot/sign/space text);
* fallible code (`try`/`except`, `KeyError`, `ValueError`, `continue`)
  is modelled with `Option`: `none` is a skipped match or line;
* pandas DataFrames are modelled as lists of `Row` records.
-/

namespace BloodReport

/-- Python `\s` on the ASCII range (the characters OCR text can contain). -/
def isPyWs (c : Char) : Bool :=
  c = ' ' || c = '\t' || c = '\n' || c = '\r' || c = '\x0b' || c = '\x0c'

/-- Python `str.strip()`: drop whitespace from both ends. -/
def strip (s : List Char) : List Char :=
  ((s.dropWhile isPyWs).reverse.dropWhile isPyWs).reverse

/-- Python `str.lower()` (ASCII data). -/
def toLowerL (s : List Char) : List Char := s.map Char.toLower

/-- Python `str.split(sep)` for a one-character separator. -/
def splitOnChar (sep : Char) : List Char → List (List Char)
  | [] => [[]]
  | c :: cs =>
    if c = sep then [] :: splitOnChar sep cs
    else
      match splitOnChar sep cs with
      | [] => [[c]]
      | p :: ps => (c :: p) :: ps

/-- Python `pat in s` for strings: contiguous-substring test. -/
def isSubstr (pat s : List Char) : Bool :=
  s.tails.any (fun t => pat.isPrefixOf t)

/-- Value of a digit string (most significant first). -/
def digitsVal (s : List Char) : ℚ :=
  s.foldl (fun acc c => acc * 10 + ((c.toNat - 48 : ℕ) : ℚ)) 0

/-- Python `float(...)` on optionally signed decimal text with surrounding
whitespace, e.g. `" 13.5 "`, `"14."`, `".5"`, `"140"`.  Returns `none`
exactly where `float` raises `ValueError` on such text (`""`, `"."`,
`"1.2.3"`, a stray non-digit, ...). -/
def pyFloat (s : List Char) : Option ℚ :=
  let t := strip s
  let signed : ℚ × List Char :=
    match t with
    | '+' :: r => (1, r)
    | '-' :: r => (-1, r)
    | r => (1, r)
  let intPart := signed.2.takeWhile Char.isDigit
  let rest := signed.2.drop intPart.length
  match rest with
  | [] => if intPart.isEmpty then none else some (signed.1 * digitsVal intPart)
  | '.' :: frac =>
    if frac.all Char.isDigit && !(intPart.isEmpty && frac.isEmpty) then
      some (signed.1 * (digitsVal intPart + digitsVal frac / (10 : ℚ) ^ frac.length))
    else none
  | _ => none

/-- `lower, upper = map(float, ref_range.split('-'))`: succeeds iff the
split around `'-'` yields exactly two pieces and both parse as floats;
any other shape raises and is caught by the callers (modelled `none`). -/
def parseRange (s : List Char) : Option (ℚ × ℚ) :=
  match (splitOnChar '-' s).map pyFloat with
  | [some lo, some hi] => some (lo, hi)
  | _ => none

/-! ## The regular-expression engine

Patterns are transcribed from the source's `re` pattern strings.  For a
pattern, `matchRE` returns every way of matching a prefix of the input,
in Python's backtracking priority order (greedy repetitions longest
first, lazy ones shortest first, alternation left first, optional parts
present first); the head of the list is the match `re` reports.
Repetition is only ever applied to a character class, as in the source's
patterns, where backtracking inside a repetition run coincides with
choosing a shorter prefix of the maximal run. -/

inductive RE where
  | cls (p : Char → Bool)
  | lit (c : Char)
  | str (s : List Char)
  | seq (a b : RE)
  | alt (a b : RE)
  | opt (a : RE)
  | plus (p : Char → Bool)
  | star (p : Char → Bool)
  | plusLazy (p : Char → Bool)
  | grp (i : Nat) (a : RE)

/-- Captured groups: group index paired with captured text. -/
abbrev Caps := List (Nat × List Char)

/-- All prefix matches of a pattern, as (captures, remaining input),
in backtracking priority order. -/
def matchRE : RE → List Char → Caps → List (Caps × List Char)
  | .cls p, cs, caps =>
    match cs with
    | c :: rest => if p c then [(caps, rest)] else []
    | [] => []
  | .lit c0, cs, caps =>
    match cs with
    | c :: rest => if c = c0 then [(caps, rest)] else []
    | [] => []
  | .str s, cs, caps =>
    if s.isPrefixOf cs then [(caps, cs.drop s.length)] else []
  | .seq a b, cs, caps =>
    (matchRE a cs caps).flatMap (fun pr => matchRE b pr.2 pr.1)
  | .alt a b, cs, caps => matchRE a cs caps ++ matchRE b cs caps
  | .opt a, cs, caps => matchRE a cs caps ++ [(caps, cs)]
  | .plus p, cs, caps =>
    let m := (cs.takeWhile p).length
    (List.range m).map (fun k => (caps, cs.drop (m - k)))
  | .star p, cs, caps =>
    let m := (cs.takeWhile p).length
    (List.range (m + 1)).map (fun k => (caps, cs.drop (m - k)))
  | .plusLazy p, cs, caps =>
    let m := (cs.takeWhile p).length
    (List.range m).map (fun k => (caps, cs.drop (k + 1)))
  | .grp i a, cs, caps =>
    (matchRE a cs caps).map
      (fun pr => ((i, cs.take (cs.length - pr.2.length)) :: pr.1, pr.2))

/-- `re.search`: try successive start positions left to right, and at the
first position with a match return the backtracking-first one as
(captures, input remaining after the match). -/
def searchRE (r : RE) : List Char → Option (Caps × List Char)
  | [] =>
    match matchRE r [] [] with
    | pr :: _ => some pr
    | [] => none
  | c :: tl =>
    match matchRE r (c :: tl) [] with
    | pr :: _ => some pr
    | [] => searchRE r tl

/-- Like `searchRE` but also reports the length of the suffix at the
matched position, so a caller can tell how much was consumed. -/
def searchAt (r : RE) : List Char → Option (Caps × Nat × List Char)
  | [] =>
    match matchRE r [] [] with
    | pr :: _ => some (pr.1, 0, pr.2)
    | [] => none
  | c :: tl =>
    match matchRE r (c :: tl) [] with
    | pr :: _ => some (pr.1, tl.length + 1, pr.2)
    | [] => searchAt r tl

/-- `re.finditer`: repeatedly search, continuing after each match
(advancing one character past an empty match, as `re` does). -/
def finditerAux (r : RE) : Nat → List Char → List Caps
  | 0, _ => []
  | fuel + 1, cs =>
    match searchAt r cs with
    | none => []
    | some (caps, suffLen, rest) =>
      if suffLen - rest.length = 0 then
        caps :: (match rest with
                 | [] => []
                 | _ :: tl => finditerAux r fuel tl)
      else caps :: finditerAux r fuel rest

def finditerRE (r : RE) (cs : List Char) : List Caps :=
  finditerAux r (cs.length + 1) cs

/-- `match.group(i)`: `none` when the group did not participate. -/
def capStr (caps : Caps) (i : Nat) : Option (List Char) :=
  (caps.find? (fun p => p.1 == i)).map (fun p => p.2)

/-! ## Data model

A row of an extraction result (`Test, Value, Units, Reference Range,
Status`); the `Status` field holds the source's literal strings
`"Normal"`, `"Low"`, `"High"`. -/

structure Row where
  test : String
  value : ℚ
  units : String
  refRange : String
  status : String
deriving DecidableEq

/-! ## Strict generic line parser (`BloodReportParser.parse_report`) -/

def isDigitC (c : Char) : Bool := c.isDigit

/-- `[A-Za-z\s]` -/
def nameClsStrict (c : Char) : Bool := c.isAlpha || isPyWs c

/-- `[A-Za-z/%]` -/
def unitClsStrict (c : Char) : Bool := c.isAlpha || c = '/' || c = '%'

/-- `[\d\.-]` / `[\d\.\-]` -/
def rangeBodyCls (c : Char) : Bool := c.isDigit || c = '.' || c = '-'

/-- `[\d\.]` -/
def numDotCls (c : Char) : Bool := c.isDigit || c = '.'

/-- `[\d]+\.?[\d]*` (also `\d+\.?\d*` in the other patterns). -/
def valueRE : RE := .seq (.plus isDigitC) (.seq (.opt (.lit '.')) (.star isDigitC))

/-- `[\d\.-]+\s*-\s*[\d\.]+`, the captured reference-range body shared by
the strict parser's group 4 and the tolerant parser's group 4. -/
def rangeCoreRE : RE :=
  .seq (.plus rangeBodyCls)
    (.seq (.star isPyWs) (.seq (.lit '-') (.seq (.star isPyWs) (.plus numDotCls))))

/-- `([A-Za-z\s]+)\s+([\d]+\.?[\d]*)\s+([A-Za-z/%]+)\s+\(?([\d\.-]+\s*-\s*[\d\.]+)?\)?` -/
def parseReportRE : RE :=
  .seq (.grp 1 (.plus nameClsStrict))
  (.seq (.plus isPyWs)
  (.seq (.grp 2 valueRE)
  (.seq (.plus isPyWs)
  (.seq (.grp 3 (.plus unitClsStrict))
  (.seq (.plus isPyWs)
  (.seq (.opt (.lit '('))
  (.seq (.opt (.grp 4 rangeCoreRE))
        (.opt (.lit ')')))))))))

/-- Status computation of `parse_report` (blood_parser.py lines 88-97):
start from `"Normal"`; when the range is not the `"N/A"` sentinel, try to
split it into two floats and compare; any parse failure is swallowed. -/
def parse_report_status (val : ℚ) (refRange : List Char) : String :=
  if refRange = "N/A".data then "Normal"
  else
    match parseRange refRange with
    | some (lo, hi) => if val < lo then "Low" else if hi < val then "High" else "Normal"
    | none => "Normal"

/-- One iteration of the `parse_report` line loop. -/
def parse_report_line (line : List Char) : Option Row :=
  match searchRE parseReportRE line with
  | none => none
  | some (caps, _) =>
    let name := strip ((capStr caps 1).getD [])
    let valStr := (capStr caps 2).getD []
    if valStr.isEmpty || valStr = ['.'] then none
    else
      match pyFloat valStr with
      | none => none
      | some val =>
        let units := strip ((capStr caps 3).getD [])
        let refRange :=
          match capStr caps 4 with
          | some r => if r.isEmpty then "N/A".data else r
          | none => "N/A".data
        some { test := ⟨name⟩, value := val, units := ⟨units⟩,
               refRange := ⟨refRange⟩,
               status := parse_report_status val refRange }

/-- `BloodReportParser.parse_report` as a function from the OCR text to
the extracted rows. -/
def parse_report (text : String) : List Row :=
  (splitOnChar '\n' text.data).filterMap parse_report_line

/-! ## Tolerant generic line parser (`BloodReportParser.advanced_parse_report`) -/

/-- `[A-Za-z0-9\s\-\(\)]` -/
def nameClsTolerant (c : Char) : Bool :=
  c.isAlpha || c.isDigit || isPyWs c || c = '-' || c = '(' || c = ')'

/-- `[A-Za-z0-9/%\s]`, also the Gemini interpreter's unit class `[A-Za-z/%0-9\s]`. -/
def unitClsTolerant (c : Char) : Bool :=
  c.isAlpha || c.isDigit || c = '/' || c = '%' || isPyWs c

/-- `[\s\:]`, also the `[:\s]` separator of the specialized patterns. -/
def colonWsCls (c : Char) : Bool := isPyWs c || c = ':'

/-- `(?:\d+\.?\d*)|(?:\.\d+)` -/
def advancedValueRE : RE :=
  .alt (.seq (.plus isDigitC) (.seq (.opt (.lit '.')) (.star isDigitC)))
       (.seq (.lit '.') (.plus isDigitC))

/-- `([A-Za-z0-9\s\-\(\)]+?)\s+((?:\d+\.?\d*)|(?:\.\d+))\s*([A-Za-z0-9/%\s]+)(?:[\s\:]*([\d\.\-]+\s*-\s*[\d\.]+))?` -/
def advancedRE : RE :=
  .seq (.grp 1 (.plusLazy nameClsTolerant))
  (.seq (.plus isPyWs)
  (.seq (.grp 2 advancedValueRE)
  (.seq (.star isPyWs)
  (.seq (.grp 3 (.plus unitClsTolerant))
        (.opt (.seq (.star colonWsCls) (.grp 4 rangeCoreRE)))))))

/-- Administrative keywords skipped by the tolerant parser. -/
def advancedSkipTerms : List String :=
  ["date", "patient", "doctor", "page", "reference", "report"]

/-- Status computation of `advanced_parse_report` (blood_parser.py lines
137-147): as the strict parser's, with an additional explicit check that
the range contains a `'-'`. -/
def advanced_status (val : ℚ) (refRange : List Char) : String :=
  if refRange = "N/A".data then "Normal"
  else if '-' ∈ refRange then
    match parseRange refRange with
    | some (lo, hi) => if val < lo then "Low" else if hi < val then "High" else "Normal"
    | none => "Normal"
  else "Normal"

/-- One iteration of the `advanced_parse_report` line loop. -/
def advanced_parse_line (line : List Char) : Option Row :=
  match searchRE advancedRE line with
  | none => none
  | some (caps, _) =>
    let name := strip ((capStr caps 1).getD [])
    if advancedSkipTerms.any (fun t => isSubstr t.data (toLowerL name))
        || name.length < 2 then none
    else
      let valStr := strip ((capStr caps 2).getD [])
      if valStr.isEmpty then none
      else
        match pyFloat valStr with
        | none => none
        | some val =>
          let units :=
            match capStr caps 3 with
            | some u => if u.isEmpty then [] else strip u
            | none => []
          let refRange :=
            match capStr caps 4 with
            | some r => if r.isEmpty then "N/A".data else r
            | none => "N/A".data
          some { test := ⟨name⟩, value := val, units := ⟨units⟩,
                 refRange := ⟨refRange⟩,
                 status := advanced_status val refRange }

/-- `BloodReportParser.advanced_parse_report`, rows only. -/
def advanced_parse_report (text : String) : List Row :=
  (splitOnChar '\n' text.data).filterMap advanced_parse_line

/-! ## Parser state (`self.test_data`) -/

/-- The mutable state of `BloodReportParser` the two generic parsers
touch: `self.test_data` (`none` models Python's `None`). -/
structure ParserState where
  test_data : Option (List Row)
deriving DecidableEq

/-- `parse_report` as a state transformer: it always stores its result
into `self.test_data` (blood_parser.py lines 109-110) and returns it. -/
def parse_report_run (st : ParserState) (text : String) : ParserState × List Row :=
  let results := parse_report text
  ({ st with test_data := some results }, results)

/-- `advanced_parse_report` as a state transformer: only a non-empty
result is stored; on zero rows a fresh empty table is returned and the
state is untouched (blood_parser.py lines 159-163). -/
def advanced_parse_report_run (st : ParserState) (text : String) :
    ParserState × List Row :=
  let results := advanced_parse_report text
  if results.isEmpty then (st, [])
  else ({ st with test_data := some results }, results)

/-! ## Vision extraction interpreter (`gemini_vision.extract_with_gemini`) -/

/-- Administrative keywords skipped by the Gemini response interpreter. -/
def geminiSkipTerms : List String :=
  ["date", "patient", "doctor", "name", "id", "address", "phone", "fax"]

/-- `([\d\.]+)` -/
def geminiValRE : RE := .grp 1 (.plus numDotCls)

/-- `[\d\.]+\s+([A-Za-z/%0-9\s]+)` -/
def geminiUnitsRE : RE :=
  .seq (.plus numDotCls) (.seq (.plus isPyWs) (.grp 1 (.plus unitClsTolerant)))

/-- `\(([^)]+)\)` -/
def geminiRefRE : RE :=
  .seq (.lit '(') (.seq (.grp 1 (.plus (fun c => !(c = ')')))) (.lit ')'))

/-- Status computation of the Gemini interpreter (gemini_vision.py lines
91-100), identical in shape to the tolerant parser's. -/
def gemini_status (val : ℚ) (refRange : List Char) : String :=
  if refRange = "N/A".data then "Normal"
  else if '-' ∈ refRange then
    match parseRange refRange with
    | some (lo, hi) => if val < lo then "Low" else if hi < val then "High" else "Normal"
    | none => "Normal"
  else "Normal"

/-- The hard-coded physiological sanity bands of the plausibility gate
(gemini_vision.py lines 104-113). -/
def sanityRanges : List (String × ℚ × ℚ) :=
  [("hemoglobin", 1, 25), ("wbc", 1/10, 100), ("rbc", 1/2, 10),
   ("platelets", 1, 1000), ("glucose", 10, 600), ("cholesterol", 50, 600),
   ("sodium", 100, 180), ("potassium", 1, 10)]

/-- The plausibility gate: a row is valid unless some sanity-band keyword
occurs in the lowered name with the value outside that band (the
source's flag-and-break loop computes exactly this conjunction). -/
def geminiPlausible (name : List Char) (val : ℚ) : Bool :=
  sanityRanges.all (fun e =>
    !(isSubstr e.1.data (toLowerL name) && (decide (val < e.2.1) || decide (e.2.2 < val))))

/-- One iteration of the Gemini response-line loop, up to and including
the status computation (everything before the plausibility gate). -/
def gemini_parse_line_pre (line : String) : Option Row :=
  let l := strip line.data
  if l.isEmpty || !(l.contains ':') then none
  else
    match splitOnChar ':' l with
    | p0 :: p1 :: _ =>
      let name :=
        strip (((strip p0).filter (fun c => !(c = '*'))).map
          (fun c => if c = '_' then ' ' else c))
      if geminiSkipTerms.any (fun t => isSubstr t.data (toLowerL name))
          || name.length < 2 then none
      else
        let valPart := strip p1
        match searchRE geminiValRE valPart with
        | none => none
        | some (vcaps, _) =>
          match pyFloat ((capStr vcaps 1).getD []) with
          | none => none
          | some val =>
            let units :=
              match searchRE geminiUnitsRE valPart with
              | some (ucaps, _) => strip ((capStr ucaps 1).getD [])
              | none => []
            let refRange :=
              match searchRE geminiRefRE valPart with
              | some (rcaps, _) => (capStr rcaps 1).getD []
              | none => "N/A".data
            some { test := ⟨name⟩, value := val, units := ⟨units⟩,
                   refRange := ⟨refRange⟩,
                   status := gemini_status val refRange }
    | _ => none

/-- A full iteration of the response-line loop: the structural parse
followed by the plausibility gate. -/
def gemini_parse_line (line : String) : Option Row :=
  match gemini_parse_line_pre line with
  | some row => if geminiPlausible row.test.data row.value then some row else none
  | none => none

/-- All rows the interpreter collects from a response text. -/
def gemini_extract_rows (responseText : String) : List Row :=
  (splitOnChar '\n' responseText.data).filterMap
    (fun l => gemini_parse_line (String.mk l))

/-- The interpreter's result on a successful external call
(gemini_vision.py lines 131-134): a table and `"Success"` when any row
was collected, otherwise `None` (absence) with the descriptive message. -/
def gemini_interpret (responseText : String) : Option (List Row) × String :=
  let tests := gemini_extract_rows responseText
  if tests.isEmpty then (none, "No test data could be extracted by Gemini model.")
  else (some tests, "Success")

/-! ## False-positive filter (`app.filter_false_positives`) -/

/-- The administrative/non-clinical skip list. -/
def skip_words : List String :=
  ["page", "street", "address", "phone", "fax", "email",
   "date", "time", "report", "sample", "lab",
   "hospital", "doctor", "patient", "reference", "iso",
   "area", "city", "state", "action", "order",
   "variation", "screening"]

/-- The clinical-terminology allow list. -/
def valid_terms : List String :=
  ["haem", "hemo", "wbc", "rbc", "platelet", "lymph", "mono", "neutro", "baso",
   "eosin", "hct", "mcv", "mch", "mchc", "rdw", "mpv", "count", "cell", "band",
   "glucose", "hba1c", "chol", "trigly", "hdl", "ldl", "vldl", "creat",
   "urea", "uric", "bili", "protein", "albumin", "glob", "ast", "alt", "alp",
   "ggt", "ldh", "amylase", "lipase",
   "sodium", "potassium", "chloride", "calcium", "phosph", "magnes", "bicarb",
   "iron", "ferritin", "vitamin", "folate", "b12", "tsh", "t3", "t4", "ft3", "ft4",
   "cortisol", "estrogen", "testosterone", "progesterone", "insulin", "prolactin",
   "psa", "cea", "afp", "ca", "beta", "hcg",
   "esr", "crp", "rf", "ana",
   "blood", "serum", "plasma", "acid", "phosphatase", "transferase",
   "electro", "lipid", "liver", "kidney", "thyroid", "hormone", "enzym",
   "ratio", "index", "total", "direct", "indirect", "free", "bound", "clearance",
   "fraction", "level", "concentration", "mass", "volume",
   "troponin", "bnp", "fibrinogen", "d-dimer", "inr", "aptt", "pt",
   "homocysteine", "cystatin", "egfr", "iga", "igg", "igm", "ige"]

/-- `.str.contains('|'.join(words))`: some word occurs as a substring
(every joined word is a regex literal here). -/
def containsAnyOf (s : List Char) (words : List String) : Bool :=
  words.any (fun w => isSubstr w.data s)

/-- `.str.match(r'^\d+$')`: the whole name is one or more digits. -/
def isAllDigitsName (s : List Char) : Bool :=
  !s.isEmpty && s.all Char.isDigit

/-- The coded/numbered clinical-term pattern
`(?:cd\d+)|(?:t\d+)|(?:b\d+)|(?:d\d+)|(?:vitamin\s+[a-e]\d*)|(?:coenzyme\s+q\d+)`
matched at the start of a suffix: a literal head followed by at least one
digit, or the vitamin/coenzyme forms. -/
def prefixThenDigits (pfx : List Char) (t : List Char) : Bool :=
  pfx.isPrefixOf t &&
    (match t.drop pfx.length with
     | c :: _ => c.isDigit
     | [] => false)

/-- `\s+[a-e]\d*` (the digits are optional, so only the letter is needed). -/
def wsThenLetterAE : List Char → Bool
  | [] => false
  | c :: rest =>
    isPyWs c &&
      ((match rest with
        | d :: _ => decide ('a' ≤ d) && decide (d ≤ 'e')
        | [] => false)
       || wsThenLetterAE rest)

/-- `\s+q\d+` -/
def wsThenQDigits : List Char → Bool
  | [] => false
  | c :: rest => isPyWs c && (prefixThenDigits ['q'] rest || wsThenQDigits rest)

def medNumberAt (t : List Char) : Bool :=
  prefixThenDigits "cd".data t || prefixThenDigits "t".data t ||
  prefixThenDigits "b".data t || prefixThenDigits "d".data t ||
  ("vitamin".data.isPrefixOf t && wsThenLetterAE (t.drop 7)) ||
  ("coenzyme".data.isPrefixOf t && wsThenQDigits (t.drop 8))

/-- `.str.contains(med_number)`: the pattern matches at some position. -/
def medNumberSearch (s : List Char) : Bool :=
  s.tails.any medNumberAt

/-- The per-row keep decision of `filter_false_positives` (app.py lines
41-69): `final_mask = mask | valid_tests | valid_numbered`. -/
def keep_test (test : String) : Bool :=
  let low := toLowerL test.data
  let mask :=
    !(containsAnyOf low skip_words)
    && !(isAllDigitsName test.data)
    && !(containsAnyOf low ["page", "of", "street", "area", "iso"])
    && decide (test.data.length > 2)
  let validTests := containsAnyOf low valid_terms
  let validNumbered := medNumberSearch low
  mask || validTests || validNumbered

/-- `filter_false_positives` on a table. -/
def filter_false_positives (rows : List Row) : List Row :=
  rows.filter (fun r => keep_test r.test)

/-! ## Reconciliation/merge engine (app.py lines 554-577)

The merge walks the strategy tables in preference order, normalizes each
test name by removing `*` and `#` and stripping whitespace, and keeps a
row only when the lowercased normalized name was not seen before,
tagging it with its strategy name. -/

/-- `test_name.replace('*', '').replace('#', '').strip()` -/
def normTestName (s : String) : String :=
  ⟨strip (s.data.filter (fun c => !(c = '*') && !(c = '#')))⟩

/-- `row['Test'].lower()` of the normalized name: the dedup key. -/
def rowKey (r : Row) : String := ⟨toLowerL (normTestName r.test).data⟩

/-- The normalized row that the merge stores (`row['Test'] = test_name`). -/
def normRowOf (r : Row) : Row := { r with test := normTestName r.test }

/-- Dedup key of an already-stored output pair. -/
def outKey (p : Row × String) : String := ⟨toLowerL p.1.test.data⟩

/-- The loop state: the `added_tests` set and the accumulated
`combined_rows` (each row paired with its `Source` strategy name). -/
structure MergeState where
  addedTests : List String
  combinedRows : List (Row × String)
deriving DecidableEq

/-- The body of the inner row loop. -/
def mergeRowStep (method : String) (st : MergeState) (row : Row) : MergeState :=
  if rowKey row ∈ st.addedTests then st
  else { addedTests := rowKey row :: st.addedTests,
         combinedRows := st.combinedRows ++ [(normRowOf row, method)] }

/-- The full merge over the ordered list of (strategy name, table)
pairs. -/
def mergeTables (tables : List (String × List Row)) : MergeState :=
  tables.foldl (fun st t => t.2.foldl (mergeRowStep t.1) st) ⟨[], []⟩

/-! ## Specialized extractor (`medical_extraction`) -/

/-- The synonym catalog `add_standard_names()` (an ordered association
list, as Python dicts preserve insertion order). -/
def add_standard_names : List (String × List String) :=
  [("WBC", ["white blood cell", "leukocyte", "white cell", "white blood cell count", "leukocyte count"]),
   ("RBC", ["red blood cell", "erythrocyte", "red cell", "red blood cell count", "erythrocyte count"]),
   ("HGB", ["hemoglobin", "haemoglobin", "hgb", "hb", "hemoglobin concentration"]),
   ("HCT", ["hematocrit", "haematocrit", "packed cell volume", "pcv", "hct", "crit"]),
   ("MCV", ["mean corpuscular volume", "mean cell volume", "mean erythrocyte volume"]),
   ("MCH", ["mean corpuscular hemoglobin", "mean cell hemoglobin", "mean erythrocyte hemoglobin"]),
   ("MCHC", ["mean corpuscular hemoglobin concentration", "mean cell hemoglobin concentration"]),
   ("PLT", ["platelet", "thrombocyte", "platelet count", "thrombocyte count"]),
   ("RDW", ["red cell distribution width", "rdw-cv", "rdw-sd", "red blood cell distribution width"]),
   ("MPV", ["mean platelet volume", "average platelet volume"]),
   ("NEUT", ["neutrophil", "neutrophils", "neutrophil count", "segmented neutrophils", "segs", "polys"]),
   ("LYMPH", ["lymphocyte", "lymphocytes", "lymphocyte count", "lymphs"]),
   ("MONO", ["monocyte", "monocytes", "monocyte count", "monos"]),
   ("EOS", ["eosinophil", "eosinophils", "eosinophil count", "eos"]),
   ("BASO", ["basophil", "basophils", "basophil count", "basos"]),
   ("BAND", ["band neutrophil", "band cells", "band forms", "bands", "stab cells"]),
   ("GLUC", ["glucose", "blood sugar", "fasting glucose", "blood glucose", "plasma glucose", "sugar"]),
   ("BUN", ["blood urea nitrogen", "urea nitrogen", "urea", "bun-creatinine ratio"]),
   ("CREA", ["creatinine", "creat", "serum creatinine"]),
   ("ALT", ["alanine aminotransferase", "alanine transaminase", "sgpt", "alat"]),
   ("AST", ["aspartate aminotransferase", "aspartate transaminase", "sgot", "asat"]),
   ("ALP", ["alkaline phosphatase", "alp", "alkphos"]),
   ("TBIL", ["total bilirubin", "bilirubin total", "total serum bilirubin"]),
   ("DBIL", ["direct bilirubin", "conjugated bilirubin", "bilirubin direct"]),
   ("IBIL", ["indirect bilirubin", "unconjugated bilirubin", "bilirubin indirect"]),
   ("ALB", ["albumin", "serum albumin", "alb"]),
   ("TP", ["total protein", "protein total", "total serum protein"]),
   ("GLOB", ["globulin", "globulins", "serum globulins"]),
   ("GGT", ["gamma-glutamyl transferase", "gamma-glutamyl transpeptidase", "ggt", "gamma gt"]),
   ("LDH", ["lactate dehydrogenase", "lactic dehydrogenase", "ldh"]),
   ("CHOL", ["cholesterol", "total cholesterol", "serum cholesterol", "tc"]),
   ("HDL", ["hdl cholesterol", "high-density lipoprotein", "hdl-c", "good cholesterol"]),
   ("LDL", ["ldl cholesterol", "low-density lipoprotein", "ldl-c", "bad cholesterol"]),
   ("TRIG", ["triglycerides", "tg", "trigs"]),
   ("VLDL", ["very low-density lipoprotein", "vldl-c", "vldl cholesterol"]),
   ("NON-HDL", ["non-hdl cholesterol", "non hdl", "non-hdl-c"]),
   ("CHOL/HDL", ["cholesterol/hdl ratio", "tc/hdl ratio", "cardiac risk ratio"]),
   ("NA", ["sodium", "na+", "serum sodium"]),
   ("K", ["potassium", "k+", "serum potassium"]),
   ("CL", ["chloride", "cl-", "serum chloride"]),
   ("CA", ["calcium", "ca++", "serum calcium", "total calcium"]),
   ("ION-CA", ["ionized calcium", "free calcium"]),
   ("MG", ["magnesium", "mg++", "serum magnesium"]),
   ("PHOS", ["phosphorus", "phosphate", "serum phosphorus", "phosphorous"]),
   ("BICARB", ["bicarbonate", "hco3", "carbon dioxide", "co2", "total co2"]),
   ("EGFR", ["estimated glomerular filtration rate", "gfr", "estimated gfr", "egfr"]),
   ("UACR", ["urine albumin-to-creatinine ratio", "albumin/creatinine ratio", "microalbumin/creatinine ratio"]),
   ("CYSTATIN-C", ["cystatin c", "cystatin"]),
   ("A1C", ["hemoglobin a1c", "glycated hemoglobin", "hba1c", "a1c", "glycohemoglobin", "glycosylated hemoglobin"]),
   ("FBS", ["fasting blood sugar", "fasting glucose", "fpg", "fasting plasma glucose"]),
   ("INSULIN", ["insulin level", "fasting insulin", "serum insulin"]),
   ("C-PEPTIDE", ["c-peptide", "connecting peptide"]),
   ("HOMA-IR", ["homeostatic model assessment of insulin resistance", "insulin resistance index"]),
   ("TSH", ["thyroid stimulating hormone", "thyrotropin", "thyroid-stimulating hormone", "thyroid function"]),
   ("FT4", ["free t4", "free thyroxine", "ft4", "free tetraiodothyronine"]),
   ("T4", ["thyroxine", "total t4", "tetraiodothyronine", "total thyroxine"]),
   ("FT3", ["free t3", "free triiodothyronine", "ft3"]),
   ("T3", ["triiodothyronine", "total t3", "t3", "total triiodothyronine"]),
   ("RT3", ["reverse t3", "reverse triiodothyronine"]),
   ("ANTI-TPO", ["anti-thyroid peroxidase antibodies", "tpo antibodies", "thyroid peroxidase antibodies"]),
   ("ANTI-TG", ["anti-thyroglobulin antibodies", "tg antibodies", "thyroglobulin antibodies"]),
   ("IRON", ["serum iron", "iron", "fe"]),
   ("FERR", ["ferritin", "serum ferritin"]),
   ("TIBC", ["total iron binding capacity", "tibc"]),
   ("TSAT", ["transferrin saturation", "iron saturation", "percent saturation", "transferrin saturation percentage"]),
   ("TRANSFERRIN", ["transferrin", "serum transferrin"]),
   ("INR", ["international normalized ratio", "prothrombin time international normalized ratio"]),
   ("PT", ["prothrombin time", "pro time"]),
   ("APTT", ["activated partial thromboplastin time", "aptt", "ptt", "partial thromboplastin time"]),
   ("FIBRINOGEN", ["fibrinogen", "factor i", "plasma fibrinogen"]),
   ("D-DIMER", ["d-dimer", "fibrin degradation fragment", "fibrin split products"]),
   ("CRP", ["c-reactive protein", "crp test", "high-sensitivity crp", "hs-crp"]),
   ("ESR", ["erythrocyte sedimentation rate", "sed rate", "esr test", "sedimentation rate"]),
   ("IL-6", ["interleukin 6", "interleukin-6", "il6"]),
   ("TNF", ["tumor necrosis factor", "tnf-alpha", "tnf alpha"]),
   ("VIT_D", ["vitamin d", "25-oh vitamin d", "25-hydroxyvitamin d", "25-oh d", "calcidiol"]),
   ("VIT_B12", ["vitamin b12", "cobalamin", "cyanocobalamin"]),
   ("FOLATE", ["folate", "folic acid", "vitamin b9"]),
   ("ZINC", ["zinc", "zn", "serum zinc"]),
   ("COPPER", ["copper", "cu", "serum copper"]),
   ("SELENIUM", ["selenium", "se", "serum selenium"]),
   ("AMMONIA", ["ammonia", "blood ammonia", "nh3"]),
   ("ALPHAFETOPROTEIN", ["alpha-fetoprotein", "afp", "alpha fetoprotein"]),
   ("TROPONIN", ["troponin", "troponin i", "troponin t", "cardiac troponin", "ctn", "ctni", "ctnt"]),
   ("CK-MB", ["creatine kinase-mb", "ck-mb", "creatine kinase myocardial band"]),
   ("BNP", ["brain natriuretic peptide", "b-type natriuretic peptide", "bnp"]),
   ("NT-PROBNP", ["n-terminal pro b-type natriuretic peptide", "nt-probnp", "pro-bnp"]),
   ("MYOGLOBIN", ["myoglobin", "serum myoglobin"]),
   ("TESTOSTERONE", ["testosterone", "total testosterone", "serum testosterone"]),
   ("FREE-TEST", ["free testosterone", "bioavailable testosterone"]),
   ("ESTRADIOL", ["estradiol", "e2", "oestradiol"]),
   ("PROGESTERONE", ["progesterone", "p4"]),
   ("CORTISOL", ["cortisol", "serum cortisol", "hydrocortisone level"]),
   ("DHEA-S", ["dehydroepiandrosterone sulfate", "dhea-sulfate", "dheas"]),
   ("PROLACTIN", ["prolactin", "prl", "lactogenic hormone"]),
   ("FSH", ["follicle stimulating hormone", "follicle-stimulating hormone"]),
   ("LH", ["luteinizing hormone", "luteinising hormone"]),
   ("ANA", ["antinuclear antibody", "antinuclear antibodies", "ana test"]),
   ("RF", ["rheumatoid factor", "rheumatoid arthritis factor"]),
   ("ANTI-CCP", ["anti-cyclic citrullinated peptide", "anti-ccp antibodies", "anti-citrullinated protein antibodies"]),
   ("C3", ["complement component 3", "complement c3"]),
   ("C4", ["complement component 4", "complement c4"]),
   ("IGA", ["immunoglobulin a", "iga test"]),
   ("IGG", ["immunoglobulin g", "igg test"]),
   ("IGM", ["immunoglobulin m", "igm test"]),
   ("IGE", ["immunoglobulin e", "ige test"]),
   ("PSA", ["prostate specific antigen", "prostate-specific antigen", "total psa"]),
   ("FREE-PSA", ["free prostate specific antigen", "free psa", "percent free psa"]),
   ("CEA", ["carcinoembryonic antigen", "carcinoembryonic antigen test"]),
   ("CA-125", ["cancer antigen 125", "ca 125", "carcinoma antigen 125"]),
   ("CA-19-9", ["cancer antigen 19-9", "ca 19-9", "carbohydrate antigen 19-9"]),
   ("CA-15-3", ["cancer antigen 15-3", "ca 15-3", "carcinoma antigen 15-3"]),
   ("PH", ["ph", "blood ph", "arterial ph"]),
   ("PCO2", ["partial pressure of carbon dioxide", "pco2", "carbon dioxide pressure"]),
   ("PO2", ["partial pressure of oxygen", "po2", "oxygen pressure"]),
   ("HCO3", ["bicarbonate", "serum bicarbonate"]),
   ("BE", ["base excess", "base deficit"]),
   ("LACTIC-ACID", ["lactic acid", "lactate", "blood lactate"])]

/-- The normal-range catalog `get_normal_ranges()`: test id to
(low, high, default unit), all stored as strings as in the source. -/
def get_normal_ranges : List (String × (String × String × String)) :=
  [("WBC", ("4.5", "11.0", "10^3/µL")),
   ("RBC", ("4.5", "5.9", "10^6/µL")),
   ("HGB", ("13.5", "17.5", "g/dL")),
   ("HCT", ("41.0", "50.0", "%")),
   ("MCV", ("80.0", "100.0", "fL")),
   ("MCH", ("27.0", "33.0", "pg")),
   ("MCHC", ("32.0", "36.0", "g/dL")),
   ("PLT", ("150", "450", "10^3/µL")),
   ("GLUC", ("70", "99", "mg/dL")),
   ("BUN", ("7", "20", "mg/dL")),
   ("CREA", ("0.6", "1.2", "mg/dL")),
   ("ALT", ("7", "56", "U/L")),
   ("AST", ("10", "40", "U/L")),
   ("ALP", ("44", "147", "U/L")),
   ("TBIL", ("0.1", "1.2", "mg/dL")),
   ("ALB", ("3.4", "5.4", "g/dL")),
   ("TP", ("6.0", "8.3", "g/dL")),
   ("CHOL", ("0", "200", "mg/dL")),
   ("HDL", ("40", "60", "mg/dL")),
   ("LDL", ("0", "100", "mg/dL")),
   ("TRIG", ("0", "150", "mg/dL")),
   ("NA", ("135", "145", "mmol/L")),
   ("K", ("3.5", "5.0", "mmol/L")),
   ("CL", ("98", "107", "mmol/L")),
   ("CA", ("8.5", "10.5", "mg/dL")),
   ("MG", ("1.7", "2.2", "mg/dL")),
   ("PHOS", ("2.5", "4.5", "mg/dL")),
   ("A1C", ("4.0", "5.6", "%")),
   ("TSH", ("0.5", "5.0", "mIU/L")),
   ("T4", ("0.8", "1.8", "ng/dL")),
   ("T3", ("2.3", "4.2", "pg/mL")),
   ("FER", ("30", "400", "ng/mL")),
   ("VIT_D", ("30", "100", "ng/mL")),
   ("VIT_B12", ("200", "900", "pg/mL")),
   ("FOL", ("2.7", "17.0", "ng/mL")),
   ("CRP", ("0", "8", "mg/L")),
   ("ESR", ("0", "15", "mm/hr")),
   ("INR", ("0.8", "1.2", ""))]

/-- Python dict access `d[k]` / `d.get(k)` on an association list. -/
def assoc {α : Type} (l : List (String × α)) (k : String) : Option α :=
  (l.find? (fun p => p.1 == k)).map (fun p => p.2)

/-- `\w` (ASCII). -/
def wordCls (c : Char) : Bool := c.isAlpha || c.isDigit || c = '_'

/-- `\w+(?:/\w+)?` -/
def unitsWordRE : RE :=
  .seq (.plus wordCls) (.opt (.seq (.lit '/') (.plus wordCls)))

/-- `\d+\.?\d*\s*-\s*\d+\.?\d*` -/
def patRangeRE : RE :=
  .seq valueRE (.seq (.star isPyWs) (.seq (.lit '-') (.seq (.star isPyWs) valueRE)))

/-- The synonym alternation `syn1|syn2|...` over the lowercased,
`re.escape`d synonyms (escaping does not change literal matching). -/
def synAltRE (syns : List String) : RE :=
  match syns.map (fun s => RE.str (toLowerL s.data)) with
  | [] => .str []
  | r :: rs => rs.foldl .alt r

/-- `(?P<test>...)[:\s]*(?P<value>\d+\.?\d*)\s*(?P<units>\w+(?:/\w+)?)?(?:\s*\(?(?P<range>...)\)?)?`
with groups numbered test=1, value=2, units=3, range=4. -/
def primaryRE (synAlt : RE) : RE :=
  .seq (.grp 1 synAlt)
  (.seq (.star colonWsCls)
  (.seq (.grp 2 valueRE)
  (.seq (.star isPyWs)
  (.seq (.opt (.grp 3 unitsWordRE))
        (.opt (.seq (.star isPyWs)
              (.seq (.opt (.lit '('))
                    (.seq (.grp 4 patRangeRE) (.opt (.lit ')'))))))))))

/-- `(?P<test>...)[:\s]*(?P<value>\d+\.?\d*)` -/
def secondaryRE (synAlt : RE) : RE :=
  .seq (.grp 1 synAlt) (.seq (.star colonWsCls) (.grp 2 valueRE))

/-- `create_patterns`: for every catalog test, the ordered
primary/secondary pattern pair. -/
def create_patterns (sn : List (String × List String)) : List (String × List RE) :=
  sn.map (fun p => (p.1, [primaryRE (synAltRE p.2), secondaryRE (synAltRE p.2)]))

/-- `clean_ocr_text` collapses every whitespace run to a single space
(`re.sub(r'\s+', ' ', text)`); its two unit-spelling substitutions
rewrite case variants of `g/dL`/`mmol/L` to a fixed spelling, which is
the identity after the lowercasing the extractor applies next, so they
are not modelled separately. -/
def collapseWsAux : List Char → Bool → List Char
  | [], _ => []
  | c :: cs, prevWs =>
    if isPyWs c then
      if prevWs then collapseWsAux cs true
      else ' ' :: collapseWsAux cs true
    else c :: collapseWsAux cs false

def clean_ocr_text (s : List Char) : List Char := collapseWsAux s false

/-- Python `str.title()`: an alphabetic character is uppercased when not
preceded by an alphabetic character, lowercased otherwise. -/
def pyTitleAux : List Char → Bool → List Char
  | [], _ => []
  | c :: cs, prevAlpha =>
    (if c.isAlpha then (if prevAlpha then c.toLower else c.toUpper) else c)
      :: pyTitleAux cs c.isAlpha

def pyTitle (s : String) : String := ⟨pyTitleAux s.data false⟩

/-- `match.groupdict()` restricted to the four named groups: `none` is a
group that is absent from the pattern or did not participate (both are
falsy at every use site). -/
structure MatchDict where
  test : Option String
  value : Option String
  units : Option String
  range : Option String
deriving DecidableEq

/-- Status computation of `extract_parameters` (medical_extraction.py
lines 255-263): no `"N/A"` guard, a bare try/except around the split. -/
def extract_status (val : ℚ) (refRange : List Char) : String :=
  match parseRange refRange with
  | some (lo, hi) => if val < lo then "Low" else if hi < val then "High" else "Normal"
  | none => "Normal"

/-- `match_dict.get(key, '')` is falsy: the group is absent, did not
participate, or captured the empty string. -/
def optStrFalsy (o : Option String) : Bool :=
  match o with
  | none => true
  | some s => s.isEmpty

/-- The body of the per-match loop of `extract_parameters`
(medical_extraction.py lines 233-273).  `none` models `continue`,
reached through the explicit guards or through a swallowed
`ValueError`/`KeyError` (the latter fires when a test id missing from
`normal_ranges` needs a default unit or range). -/
def processMatch (sn : List (String × List String))
    (nr : List (String × (String × String × String)))
    (testId : String) (md : MatchDict) : Option Row :=
  let tn0 := strip (md.test.getD "").data
  let nameRes : Option String :=
    if tn0.isEmpty then some ⟨tn0⟩
    else
      match assoc sn testId with
      | some (s0 :: _) => some (pyTitle s0)
      | _ => none
  match nameRes with
  | none => none
  | some testName =>
    match md.value with
    | none => none
    | some vs =>
      if vs.isEmpty then none
      else
        match pyFloat vs.data with
        | none => none
        | some val =>
          let unitsRes : Option String :=
            if optStrFalsy md.units then (assoc nr testId).map (fun u3 => u3.2.2)
            else md.units
          match unitsRes with
          | none => none
          | some units =>
            let rangeRes : Option String :=
              if optStrFalsy md.range then
                (assoc nr testId).map (fun u3 => u3.1 ++ "-" ++ u3.2.1)
              else md.range
            match rangeRes with
            | none => none
            | some rangeVal =>
              some { test := testName, value := val, units := units,
                     refRange := rangeVal,
                     status := extract_status val rangeVal.data }

/-- `df.drop_duplicates(subset=['Test'], keep='first')`. -/
def dropDupTests (seen : List String) : List Row → List Row
  | [] => []
  | r :: rs =>
    if r.test ∈ seen then dropDupTests seen rs
    else r :: dropDupTests (r.test :: seen) rs

/-- The group dictionary of one regex match. -/
def capsToDict (caps : Caps) : MatchDict :=
  { test := (capStr caps 1).map String.mk,
    value := (capStr caps 2).map String.mk,
    units := (capStr caps 3).map String.mk,
    range := (capStr caps 4).map String.mk }

/-- `extract_parameters`: scan the cleaned, lowercased text with every
pattern of every catalog test, process each match, and deduplicate by
test name keeping the first occurrence. -/
def extract_parameters (text : String) (sn : List (String × List String))
    (pats : List (String × List RE))
    (nr : List (String × (String × String × String))) : List Row :=
  let cleanLower := toLowerL (clean_ocr_text text.data)
  let results := pats.flatMap (fun tp =>
    tp.2.flatMap (fun r =>
      (finditerRE r cleanLower).filterMap (fun caps =>
        processMatch sn nr tp.1 (capsToDict caps))))
  dropDupTests [] results

/-- The extractor as `BloodReportParser.extract_specialized_parameters`
invokes it: with the full catalogs built at construction time. -/
def extract_specialized (text : String) : List Row :=
  extract_parameters text add_standard_names
    (create_patterns add_standard_names) get_normal_ranges

/-! ## Theorems -/

unseal Rat.add Rat.mul Rat.sub Rat.inv Nat.gcd

theorem splitOnChar_ne_nil (sep : Char) (l : List Char) : splitOnChar sep l ≠ [] := by
  cases l with
  | nil => simp [splitOnChar]
  | cons c cs =>
    unfold splitOnChar
    split
    · simp
    · cases h : splitOnChar sep cs <;> simp

theorem mem_of_splitOnChar_two (sep : Char) (l : List Char)
    (h : 2 ≤ (splitOnChar sep l).length) : sep ∈ l := by
  induction l with
  | nil => simp [splitOnChar] at h
  | cons c cs ih =>
    unfold splitOnChar at h
    by_cases hc : c = sep
    · simp [hc]
    · rw [if_neg hc] at h
      rcases hsp : splitOnChar sep cs with _ | ⟨p, ps⟩
      · exact absurd hsp (splitOnChar_ne_nil sep cs)
      · rw [hsp] at h
        simp only [List.length_cons] at h
        refine List.mem_cons_of_mem c (ih ?_)
        rw [hsp]
        simp only [List.length_cons]
        omega

theorem parseRange_dash {s : List Char} {pr : ℚ × ℚ}
    (h : parseRange s = some pr) : '-' ∈ s := by
  unfold parseRange at h
  rcases hm : (splitOnChar '-' s).map pyFloat with _ | ⟨a, _ | ⟨b, l⟩⟩ <;> rw [hm] at h
  · exact absurd h (by simp)
  · exact absurd h (by simp)
  · cases l with
    | nil =>
      have hlen : (splitOnChar '-' s).length = 2 := by
        have := congrArg List.length hm
        simpa using this
      exact mem_of_splitOnChar_two '-' s (by omega)
    | cons c l' => exact absurd h (by simp)

theorem parseRange_NA : parseRange "N/A".data = none := by decide

/-- The shared comparison step `if val < lower: Low elif val > upper: High
else Normal`, characterized for a well-ordered range. -/
theorem compare_spec (val lo hi : ℚ) (hle : lo ≤ hi) :
    (((if val < lo then "Low" else if hi < val then "High" else "Normal") = "High" ↔ hi < val) ∧
     ((if val < lo then "Low" else if hi < val then "High" else "Normal") = "Low" ↔ val < lo) ∧
     ((val = lo ∨ val = hi) →
       (if val < lo then "Low" else if hi < val then "High" else "Normal") = "Normal")) := by
  refine ⟨?_, ?_, ?_⟩
  · split_ifs with h1 h2
    · simp only [String.reduceEq, false_iff]
      intro hc
      exact absurd (lt_trans hc h1) (not_lt.mpr hle)
    · simpa using h2
    · simpa using h2
  · split_ifs with h1 h2
    · simpa using h1
    · simp only [String.reduceEq, false_iff]
      exact h1
    · simpa using h1
  · rintro (rfl | rfl)
    · rw [if_neg (lt_irrefl val), if_neg (not_lt.mpr hle)]
    · rw [if_neg (not_lt.mpr hle), if_neg (lt_irrefl val)]

theorem parse_report_status_of_range {val lo hi : ℚ} {ref : List Char}
    (h : parseRange ref = some (lo, hi)) :
    parse_report_status val ref =
      (if val < lo then "Low" else if hi < val then "High" else "Normal") := by
  unfold parse_report_status
  rw [if_neg, h]
  intro hna
  rw [hna, parseRange_NA] at h
  exact absurd h (by simp)

theorem advanced_status_of_range {val lo hi : ℚ} {ref : List Char}
    (h : parseRange ref = some (lo, hi)) :
    advanced_status val ref =
      (if val < lo then "Low" else if hi < val then "High" else "Normal") := by
  unfold advanced_status
  rw [if_neg, if_pos (parseRange_dash h), h]
  intro hna
  rw [hna, parseRange_NA] at h
  exact absurd h (by simp)

theorem gemini_status_of_range {val lo hi : ℚ} {ref : List Char}
    (h : parseRange ref = some (lo, hi)) :
    gemini_status val ref =
      (if val < lo then "Low" else if hi < val then "High" else "Normal") := by
  unfold gemini_status
  rw [if_neg, if_pos (parseRange_dash h), h]
  intro hna
  rw [hna, parseRange_NA] at h
  exact absurd h (by simp)

theorem extract_status_of_range {val lo hi : ℚ} {ref : List Char}
    (h : parseRange ref = some (lo, hi)) :
    extract_status val ref =
      (if val < lo then "Low" else if hi < val then "High" else "Normal") := by
  unfold extract_status
  rw [h]

theorem parse_report_status_default {val : ℚ} {ref : List Char}
    (h : ref = "N/A".data ∨ parseRange ref = none) :
    parse_report_status val ref = "Normal" := by
  unfold parse_report_status
  by_cases hna : ref = "N/A".data
  · rw [if_pos hna]
  · rw [if_neg hna, (h.resolve_left hna)]

theorem advanced_status_default {val : ℚ} {ref : List Char}
    (h : ref = "N/A".data ∨ parseRange ref = none) :
    advanced_status val ref = "Normal" := by
  unfold advanced_status
  by_cases hna : ref = "N/A".data
  · rw [if_pos hna]
  · rw [if_neg hna]
    by_cases hd : '-' ∈ ref
    · rw [if_pos hd, (h.resolve_left hna)]
    · rw [if_neg hd]

theorem gemini_status_default {val : ℚ} {ref : List Char}
    (h : ref = "N/A".data ∨ parseRange ref = none) :
    gemini_status val ref = "Normal" := by
  unfold gemini_status
  by_cases hna : ref = "N/A".data
  · rw [if_pos hna]
  · rw [if_neg hna]
    by_cases hd : '-' ∈ ref
    · rw [if_pos hd, (h.resolve_left hna)]
    · rw [if_neg hd]

theorem extract_status_default {val : ℚ} {ref : List Char}
    (h : ref = "N/A".data ∨ parseRange ref = none) :
    extract_status val ref = "Normal" := by
  unfold extract_status
  rcases h with h | h
  · rw [h, parseRange_NA]
  · rw [h]

/-- Every row `parse_report` emits carries the status its status stage
computes from its own value and stored reference range. -/
theorem parse_report_line_status {l : List Char} {row : Row}
    (h : parse_report_line l = some row) :
    row.status = parse_report_status row.value row.refRange.data := by
  unfold parse_report_line at h
  simp only [] at h
  repeat' split at h
  all_goals (cases h <;> rfl)

theorem advanced_parse_line_status {l : List Char} {row : Row}
    (h : advanced_parse_line l = some row) :
    row.status = advanced_status row.value row.refRange.data := by
  unfold advanced_parse_line at h
  simp only [] at h
  repeat' split at h
  all_goals (cases h <;> rfl)

theorem gemini_parse_line_pre_status {l : String} {row : Row}
    (h : gemini_parse_line_pre l = some row) :
    row.status = gemini_status row.value row.refRange.data := by
  unfold gemini_parse_line_pre at h
  simp only [] at h
  repeat' split at h
  all_goals (cases h <;> rfl)

theorem gemini_parse_line_of_pre {l : String} {row : Row}
    (h : gemini_parse_line l = some row) :
    gemini_parse_line_pre l = some row := by
  unfold gemini_parse_line at h
  split at h
  · split at h
    · cases h
      assumption
    · exact absurd h (by simp)
  · exact absurd h (by simp)

theorem processMatch_status {sn : List (String × List String)}
    {nr : List (String × (String × String × String))}
    {testId : String} {md : MatchDict} {row : Row}
    (h : processMatch sn nr testId md = some row) :
    row.status = extract_status row.value row.refRange.data := by
  unfold processMatch at h
  simp only [] at h
  repeat' split at h
  all_goals (cases h <;> rfl)

theorem dropDupTests_subset {seen : List String} {l : List Row} {r : Row}
    (h : r ∈ dropDupTests seen l) : r ∈ l := by
  induction l generalizing seen with
  | nil => simp [dropDupTests] at h
  | cons x xs ih =>
    unfold dropDupTests at h
    split at h
    · exact List.mem_cons.mpr (Or.inr (ih h))
    · rw [List.mem_cons] at h
      rcases h with rfl | h
      · exact List.mem_cons.mpr (Or.inl rfl)
      · exact List.mem_cons.mpr (Or.inr (ih h))

/-- A row of the specialized extractor comes from some processed match. -/
theorem extract_specialized_mem {text : String} {row : Row}
    (h : row ∈ extract_specialized text) :
    ∃ testId md,
      processMatch add_standard_names get_normal_ranges testId md = some row := by
  unfold extract_specialized extract_parameters at h
  have h2 := dropDupTests_subset h
  rw [List.mem_flatMap] at h2
  obtain ⟨tp, _, h3⟩ := h2
  rw [List.mem_flatMap] at h3
  obtain ⟨r, _, h4⟩ := h3
  rw [List.mem_filterMap] at h4
  obtain ⟨caps, _, h5⟩ := h4
  exact ⟨tp.1, capsToDict caps, h5⟩

/-- C1: in all of the strict generic parser, the tolerant generic parser,
the specialized extractor and the vision interpreter, an extracted row
whose reference range parses as `low-high` with `low ≤ high` has status
`"High"` iff its value exceeds `high`, `"Low"` iff its value is below
`low`, and `"Normal"` otherwise — in particular a value equal to either
bound yields `"Normal"`. -/
theorem c1_status_thresholds (row : Row) (lo hi : ℚ)
    (horigin :
      (∃ text, row ∈ parse_report text) ∨
      (∃ text, row ∈ advanced_parse_report text) ∨
      (∃ text, row ∈ extract_specialized text) ∨
      (∃ line, gemini_parse_line line = some row))
    (hrange : parseRange row.refRange.data = some (lo, hi))
    (hle : lo ≤ hi) :
    ((row.status = "High" ↔ hi < row.value) ∧
     (row.status = "Low" ↔ row.value < lo) ∧
     ((row.value = lo ∨ row.value = hi) → row.status = "Normal")) := by
  have hstat : row.status =
      (if row.value < lo then "Low" else if hi < row.value then "High" else "Normal") := by
    rcases horigin with ⟨text, hm⟩ | ⟨text, hm⟩ | ⟨text, hm⟩ | ⟨line, hm⟩
    · rw [parse_report] at hm
      rw [List.mem_filterMap] at hm
      obtain ⟨l, _, hl⟩ := hm
      rw [parse_report_line_status hl, parse_report_status_of_range hrange]
    · rw [advanced_parse_report] at hm
      rw [List.mem_filterMap] at hm
      obtain ⟨l, _, hl⟩ := hm
      rw [advanced_parse_line_status hl, advanced_status_of_range hrange]
    · obtain ⟨tid, md, hl⟩ := extract_specialized_mem hm
      rw [processMatch_status hl, extract_status_of_range hrange]
    · rw [gemini_parse_line_pre_status (gemini_parse_line_of_pre hm),
        gemini_status_of_range hrange]
  rw [hstat]
  exact compare_spec row.value lo hi hle

/-- C1 witness: the strict parser on `"Hemoglobin 18 g/dL (13.5-17.5)"`
yields a row with value 18 above the upper bound 17.5, classified
`"High"`. -/
theorem c1_status_thresholds_witness :
    (⟨"Hemoglobin", 18, "g/dL", "13.5-17.5", "High"⟩ : Row).status = "High" ↔
      (35 : ℚ)/2 < (⟨"Hemoglobin", 18, "g/dL", "13.5-17.5", "High"⟩ : Row).value :=
  (c1_status_thresholds ⟨"Hemoglobin", 18, "g/dL", "13.5-17.5", "High"⟩ (27/2) (35/2)
    (Or.inl ⟨"Hemoglobin 18 g/dL (13.5-17.5)", by decide⟩)
    (by decide) (by norm_num)).1

/-- C2: in all four parsers, a row whose reference range is the `"N/A"`
sentinel or fails to parse as two floats around `'-'` is classified
`"Normal"`, never `"High"` or `"Low"` (and the embedded parsers are
total functions: no exception escapes). -/
theorem c2_malformed_range_normal (row : Row)
    (horigin :
      (∃ text, row ∈ parse_report text) ∨
      (∃ text, row ∈ advanced_parse_report text) ∨
      (∃ text, row ∈ extract_specialized text) ∨
      (∃ line, gemini_parse_line line = some row))
    (hrange : row.refRange = "N/A" ∨ parseRange row.refRange.data = none) :
    row.status = "Normal" := by
  have hrange' : row.refRange.data = "N/A".data ∨ parseRange row.refRange.data = none := by
    rcases hrange with h | h
    · exact Or.inl (by rw [h])
    · exact Or.inr h
  rcases horigin with ⟨text, hm⟩ | ⟨text, hm⟩ | ⟨text, hm⟩ | ⟨line, hm⟩
  · rw [parse_report] at hm
    rw [List.mem_filterMap] at hm
    obtain ⟨l, _, hl⟩ := hm
    rw [parse_report_line_status hl, parse_report_status_default hrange']
  · rw [advanced_parse_report] at hm
    rw [List.mem_filterMap] at hm
    obtain ⟨l, _, hl⟩ := hm
    rw [advanced_parse_line_status hl, advanced_status_default hrange']
  · obtain ⟨tid, md, hl⟩ := extract_specialized_mem hm
    rw [processMatch_status hl, extract_status_default hrange']
  · rw [gemini_parse_line_pre_status (gemini_parse_line_of_pre hm),
      gemini_status_default hrange']

/-- C2 witness: the strict parser emits the range sentinel `"N/A"` on
`"Hemoglobin 14.2 g/dL x"` and classifies the row `"Normal"`. -/
theorem c2_malformed_range_normal_witness :
    (⟨"Hemoglobin", 71/5, "g/dL", "N/A", "Normal"⟩ : Row).status = "Normal" :=
  c2_malformed_range_normal ⟨"Hemoglobin", 71/5, "g/dL", "N/A", "Normal"⟩
    (Or.inl ⟨"Hemoglobin 14.2 g/dL x", by decide⟩) (Or.inl rfl)

/-! Lemmas about the reconciliation merge. -/

theorem mergeRowStep_added_mono (m : String) (st : MergeState) (r : Row) :
    st.addedTests ⊆ (mergeRowStep m st r).addedTests := by
  unfold mergeRowStep
  split
  · exact fun a ha => ha
  · exact fun a ha => List.mem_cons.mpr (Or.inr ha)

theorem mergeRowStep_key_mem (m : String) (st : MergeState) (r : Row) :
    rowKey r ∈ (mergeRowStep m st r).addedTests := by
  unfold mergeRowStep
  split
  · assumption
  · exact List.mem_cons.mpr (Or.inl rfl)

theorem mergeRowStep_stable {m : String} {st : MergeState} {r : Row}
    (h : rowKey r ∈ st.addedTests) : mergeRowStep m st r = st := by
  unfold mergeRowStep
  rw [if_pos h]

theorem mergeRowStep_combined_mono {m : String} {st : MergeState} {r : Row}
    {p : Row × String} (h : p ∈ st.combinedRows) :
    p ∈ (mergeRowStep m st r).combinedRows := by
  unfold mergeRowStep
  split
  · exact h
  · exact List.mem_append_left _ h

theorem foldRows_added_mono (m : String) (rows : List Row) (st : MergeState) :
    st.addedTests ⊆ (rows.foldl (mergeRowStep m) st).addedTests := by
  induction rows generalizing st with
  | nil => exact fun a ha => ha
  | cons r rs ih =>
    exact fun a ha => ih (mergeRowStep m st r) (mergeRowStep_added_mono m st r ha)

theorem foldRows_key_mem (m : String) {rows : List Row} (st : MergeState) {r : Row}
    (h : r ∈ rows) : rowKey r ∈ (rows.foldl (mergeRowStep m) st).addedTests := by
  induction rows generalizing st with
  | nil => simp at h
  | cons r0 rs ih =>
    rw [List.mem_cons] at h
    rcases h with rfl | h
    · exact foldRows_added_mono m rs (mergeRowStep m st r)
        (mergeRowStep_key_mem m st r)
    · exact ih _ h

theorem foldRows_stable {m : String} {rows : List Row} {st : MergeState}
    (h : ∀ r ∈ rows, rowKey r ∈ st.addedTests) :
    rows.foldl (mergeRowStep m) st = st := by
  induction rows with
  | nil => rfl
  | cons r rs ih =>
    have h0 : mergeRowStep m st r = st :=
      mergeRowStep_stable (h r (List.mem_cons.mpr (Or.inl rfl)))
    simp only [List.foldl_cons, h0]
    exact ih (fun r' hr' => h r' (List.mem_cons.mpr (Or.inr hr')))

theorem foldRows_combined_mono {m : String} {rows : List Row} {st : MergeState}
    {p : Row × String} (h : p ∈ st.combinedRows) :
    p ∈ (rows.foldl (mergeRowStep m) st).combinedRows := by
  induction rows generalizing st with
  | nil => exact h
  | cons r rs ih => exact ih (mergeRowStep_combined_mono h)

/-- One strategy-table step of the outer fold. -/
def mergeTableStep (st : MergeState) (t : String × List Row) : MergeState :=
  t.2.foldl (mergeRowStep t.1) st

theorem mergeTables_eq_foldl (tables : List (String × List Row)) :
    mergeTables tables = tables.foldl mergeTableStep ⟨[], []⟩ := rfl

theorem foldTables_added_mono (tables : List (String × List Row)) (st : MergeState) :
    st.addedTests ⊆ (tables.foldl mergeTableStep st).addedTests := by
  induction tables generalizing st with
  | nil => exact fun a ha => ha
  | cons t ts ih =>
    exact fun a ha => ih (mergeTableStep st t) (foldRows_added_mono t.1 t.2 st ha)

theorem foldTables_key_mem {tables : List (String × List Row)} (st : MergeState)
    {t : String × List Row} {r : Row} (ht : t ∈ tables) (hr : r ∈ t.2) :
    rowKey r ∈ (tables.foldl mergeTableStep st).addedTests := by
  induction tables generalizing st with
  | nil => simp at ht
  | cons t0 ts ih =>
    rw [List.mem_cons] at ht
    rcases ht with rfl | ht
    · exact foldTables_added_mono ts (mergeTableStep st t)
        (foldRows_key_mem t.1 st hr)
    · exact ih _ ht

theorem foldTables_stable {tables : List (String × List Row)} {st : MergeState}
    (h : ∀ t ∈ tables, ∀ r ∈ t.2, rowKey r ∈ st.addedTests) :
    tables.foldl mergeTableStep st = st := by
  induction tables with
  | nil => rfl
  | cons t ts ih =>
    have h0 : mergeTableStep st t = st :=
      foldRows_stable (h t (List.mem_cons.mpr (Or.inl rfl)))
    simp only [List.foldl_cons, h0]
    exact ih (fun t' ht' => h t' (List.mem_cons.mpr (Or.inr ht')))

theorem foldTables_combined_mono {tables : List (String × List Row)}
    {st : MergeState} {p : Row × String} (h : p ∈ st.combinedRows) :
    p ∈ (tables.foldl mergeTableStep st).combinedRows := by
  induction tables generalizing st with
  | nil => exact h
  | cons t ts ih => exact ih (foldRows_combined_mono h)

/-- The merge invariant: output dedup keys are pairwise distinct and all
recorded in `addedTests`. -/
def MergeInv (st : MergeState) : Prop :=
  st.combinedRows.Pairwise (fun p q => outKey p ≠ outKey q) ∧
  ∀ p ∈ st.combinedRows, outKey p ∈ st.addedTests

theorem mergeRowStep_inv {m : String} {st : MergeState} {r : Row}
    (h : MergeInv st) : MergeInv (mergeRowStep m st r) := by
  obtain ⟨hpw, hmem⟩ := h
  unfold mergeRowStep
  split
  · exact ⟨hpw, hmem⟩
  next hnot =>
    constructor
    · rw [List.pairwise_append]
      refine ⟨hpw, List.pairwise_singleton _ _, ?_⟩
      intro p hp q hq
      rw [List.mem_singleton] at hq
      subst hq
      intro hkey
      have hin : outKey p ∈ st.addedTests := hmem p hp
      rw [hkey] at hin
      exact hnot hin
    · intro p hp
      rw [List.mem_append, List.mem_singleton] at hp
      rcases hp with hp | rfl
      · exact List.mem_cons.mpr (Or.inr (hmem p hp))
      · exact List.mem_cons.mpr (Or.inl rfl)

theorem foldRows_inv {m : String} {rows : List Row} {st : MergeState}
    (h : MergeInv st) : MergeInv (rows.foldl (mergeRowStep m) st) := by
  induction rows generalizing st with
  | nil => exact h
  | cons r rs ih => exact ih (mergeRowStep_inv h)

theorem foldTables_inv {tables : List (String × List Row)} {st : MergeState}
    (h : MergeInv st) : MergeInv (tables.foldl mergeTableStep st) := by
  induction tables generalizing st with
  | nil => exact h
  | cons t ts ih => exact ih (foldRows_inv h)

/-- Folding one strategy's rows from a state where key `k` is unseen
produces an output pair with key `k`, tagged with that strategy, whose
row is the normalization of a strategy row bearing key `k`. -/
theorem foldRows_first_win {m : String} {rows : List Row} {st : MergeState}
    {k : String} (hex : ∃ r ∈ rows, rowKey r = k) (hnot : k ∉ st.addedTests) :
    ∃ p ∈ (rows.foldl (mergeRowStep m) st).combinedRows,
      outKey p = k ∧ p.2 = m ∧ ∃ r ∈ rows, rowKey r = k ∧ p.1 = normRowOf r := by
  induction rows generalizing st with
  | nil => simp at hex
  | cons r0 rs ih =>
    by_cases hk0 : rowKey r0 = k
    · have hstep : mergeRowStep m st r0 =
          { addedTests := rowKey r0 :: st.addedTests,
            combinedRows := st.combinedRows ++ [(normRowOf r0, m)] } := by
        unfold mergeRowStep
        rw [if_neg (hk0 ▸ hnot)]
      refine ⟨(normRowOf r0, m), ?_, hk0, rfl, r0, List.mem_cons.mpr (Or.inl rfl), hk0, rfl⟩
      rw [List.foldl_cons, hstep]
      exact foldRows_combined_mono (List.mem_append_right _ (List.mem_singleton.mpr rfl))
    · have hex' : ∃ r ∈ rs, rowKey r = k := by
        obtain ⟨r, hr, hrk⟩ := hex
        rw [List.mem_cons] at hr
        rcases hr with rfl | hr
        · exact absurd hrk hk0
        · exact ⟨r, hr, hrk⟩
      have hnot' : k ∉ (mergeRowStep m st r0).addedTests := by
        unfold mergeRowStep
        split
        · exact hnot
        · intro hmem
          rw [List.mem_cons] at hmem
          rcases hmem with heq | hmem
          · exact hk0 heq.symm
          · exact hnot hmem
      obtain ⟨p, hp, hpk, hpm, r, hr, hrk, hpr⟩ := ih hex' hnot'
      exact ⟨p, hp, hpk, hpm, r, List.mem_cons.mpr (Or.inr hr), hrk, hpr⟩

/-- C8: the reconciliation merge is idempotent — merging the strategy
list concatenated with itself yields the same canonical table as merging
it once (every second-pass row carries an already-seen key and is
discarded). -/
theorem c8_merge_idempotent (tables : List (String × List Row)) :
    (mergeTables (tables ++ tables)).combinedRows = (mergeTables tables).combinedRows := by
  rw [mergeTables_eq_foldl, mergeTables_eq_foldl, List.foldl_append]
  rw [@foldTables_stable tables (tables.foldl mergeTableStep ⟨[], []⟩)
    (fun t ht r hr => foldTables_key_mem _ ht hr)]

/-- C3: when two strategies in preference order each report a row whose
test names agree case-insensitively after stripping `*`/`#` and
trimming, the canonical table contains exactly one row under that dedup
key; its values are the (normalized) first key-matching row of the
earlier strategy and its Source tag is the earlier strategy's name — the
later strategy's row is discarded. -/
theorem c3_first_strategy_wins (m1 m2 : String) (rows1 rows2 : List Row)
    (r1 r2 : Row) (h1 : r1 ∈ rows1) (_h2 : r2 ∈ rows2)
    (_hk : rowKey r2 = rowKey r1) :
    ∃ p ∈ (mergeTables [(m1, rows1), (m2, rows2)]).combinedRows,
      outKey p = rowKey r1 ∧ p.2 = m1 ∧
      (∃ r ∈ rows1, rowKey r = rowKey r1 ∧ p.1 = normRowOf r) ∧
      ∀ q ∈ (mergeTables [(m1, rows1), (m2, rows2)]).combinedRows,
        outKey q = rowKey r1 → q = p := by
  have hfold : mergeTables [(m1, rows1), (m2, rows2)] =
      rows2.foldl (mergeRowStep m2)
        (rows1.foldl (mergeRowStep m1) (⟨[], []⟩ : MergeState)) := rfl
  obtain ⟨p, hp, hpk, hpm, hpr⟩ :=
    @foldRows_first_win m1 rows1 (⟨[], []⟩ : MergeState) (rowKey r1)
      ⟨r1, h1, rfl⟩ (by simp)
  have hpfull : p ∈ (mergeTables [(m1, rows1), (m2, rows2)]).combinedRows := by
    rw [hfold]
    exact foldRows_combined_mono hp
  have hinv : MergeInv (mergeTables [(m1, rows1), (m2, rows2)]) := by
    rw [mergeTables_eq_foldl]
    exact foldTables_inv ⟨List.Pairwise.nil, by simp⟩
  refine ⟨p, hpfull, hpk, hpm, hpr, ?_⟩
  intro q hq hqk
  by_contra hne
  have hsymm : Symmetric (fun p q : Row × String => outKey p ≠ outKey q) :=
    fun a b hab => fun hba => hab hba.symm
  have := hinv.1.forall hsymm hq hpfull hne
  rw [hqk, hpk] at this
  exact this rfl

/-- C3 witness: `"Hemoglobin*"` from the first strategy and
`"Hemoglobin"` from the second collapse to one canonical row carrying
the first strategy's values and Source. -/
theorem c3_first_strategy_wins_witness :
    ∃ p ∈ (mergeTables
        [("Gemini Vision", [⟨"Hemoglobin*", 14, "g/dL", "13.5-17.5", "Normal"⟩]),
         ("Specialized Medical Extraction",
            [⟨"Hemoglobin", 12, "g/dL", "13.5-17.5", "Low"⟩])]).combinedRows,
      outKey p = rowKey ⟨"Hemoglobin*", 14, "g/dL", "13.5-17.5", "Normal"⟩ ∧
      p.2 = "Gemini Vision" ∧
      (∃ r ∈ [(⟨"Hemoglobin*", 14, "g/dL", "13.5-17.5", "Normal"⟩ : Row)],
        rowKey r = rowKey ⟨"Hemoglobin*", 14, "g/dL", "13.5-17.5", "Normal"⟩ ∧
        p.1 = normRowOf r) ∧
      ∀ q ∈ (mergeTables
        [("Gemini Vision", [⟨"Hemoglobin*", 14, "g/dL", "13.5-17.5", "Normal"⟩]),
         ("Specialized Medical Extraction",
            [⟨"Hemoglobin", 12, "g/dL", "13.5-17.5", "Low"⟩])]).combinedRows,
        outKey q = rowKey ⟨"Hemoglobin*", 14, "g/dL", "13.5-17.5", "Normal"⟩ → q = p :=
  c3_first_strategy_wins "Gemini Vision" "Specialized Medical Extraction"
    [⟨"Hemoglobin*", 14, "g/dL", "13.5-17.5", "Normal"⟩]
    [⟨"Hemoglobin", 12, "g/dL", "13.5-17.5", "Low"⟩]
    ⟨"Hemoglobin*", 14, "g/dL", "13.5-17.5", "Normal"⟩
    ⟨"Hemoglobin", 12, "g/dL", "13.5-17.5", "Low"⟩
    (by decide) (by decide) (by decide)

/-- C4: the false-positive filter is monotonic under its allow list —
every row whose lowered test name contains an allow-list clinical term
or matches the coded/numbered clinical-term pattern is retained in the
filtered output, whatever else the name looks like (administrative,
short, or numeric). -/
theorem c4_allowlist_monotonic (rows : List Row) (row : Row) (hmem : row ∈ rows)
    (hallow : containsAnyOf (toLowerL row.test.data) valid_terms = true ∨
              medNumberSearch (toLowerL row.test.data) = true) :
    row ∈ filter_false_positives rows := by
  unfold filter_false_positives
  rw [List.mem_filter]
  refine ⟨hmem, ?_⟩
  unfold keep_test
  simp only []
  rcases hallow with h | h <;> rw [h] <;> simp

/-- C4 witness: the short coded name `"CD4"` (numbered-code pattern) is
retained. -/
theorem c4_allowlist_monotonic_witness :
    (⟨"CD4", 500, "cells/µL", "N/A", "Normal"⟩ : Row) ∈
      filter_false_positives [⟨"CD4", 500, "cells/µL", "N/A", "Normal"⟩] :=
  c4_allowlist_monotonic _ _ (by decide) (Or.inr (by decide))

/-- C5: in the vision interpreter, a structurally parsed line whose name
contains a sanity-band keyword with a value outside the band produces no
row; a parsed line whose name contains none of the eight keywords is
never rejected on value at this stage; and the response line
`"Potassium: 15.0 mmol/L (3.5-5.0)"` parses structurally (to value 15,
status High) yet produces zero rows, because the potassium band is
1-10. -/
theorem c5_plausibility_gate :
    (∀ line row, gemini_parse_line_pre line = some row →
      ((∃ e ∈ sanityRanges, isSubstr e.1.data (toLowerL row.test.data) = true ∧
          (row.value < e.2.1 ∨ e.2.2 < row.value)) →
        gemini_parse_line line = none) ∧
      ((∀ e ∈ sanityRanges, isSubstr e.1.data (toLowerL row.test.data) = false) →
        gemini_parse_line line = some row)) ∧
    gemini_parse_line_pre "Potassium: 15.0 mmol/L (3.5-5.0)" =
      some ⟨"Potassium", 15, "mmol/L", "3.5-5.0", "High"⟩ ∧
    gemini_extract_rows "Potassium: 15.0 mmol/L (3.5-5.0)" = [] := by
  refine ⟨?_, by decide, by decide⟩
  intro line row hpre
  constructor
  · rintro ⟨e, he, hsub, hout⟩
    have hplaus : geminiPlausible row.test.data row.value = false := by
      unfold geminiPlausible
      rw [List.all_eq_false]
      refine ⟨e, he, ?_⟩
      rw [hsub]
      rcases hout with h | h <;> simp [decide_eq_true h]
    unfold gemini_parse_line
    rw [hpre]
    simp only [hplaus]
    simp
  · intro hnone
    have hplaus : geminiPlausible row.test.data row.value = true := by
      unfold geminiPlausible
      rw [List.all_eq_true]
      intro e he
      rw [hnone e he]
      simp
    unfold gemini_parse_line
    rw [hpre]
    simp only [hplaus]
    simp

/-- C5 witness: `"Hemoglobin: 30 g/dL"` parses structurally but 30 lies
above the hemoglobin band 1-25, so the gate drops the line. -/
theorem c5_plausibility_gate_witness :
    gemini_parse_line "Hemoglobin: 30 g/dL" = none :=
  ((c5_plausibility_gate.1 "Hemoglobin: 30 g/dL"
      ⟨"Hemoglobin", 30, "g/dL", "N/A", "Normal"⟩ (by decide)).1
    ⟨("hemoglobin", 1, 25), by decide, by decide, Or.inr (by decide)⟩)

set_option maxRecDepth 40000 in
/-- C6 counterexample: `RDW` is a catalog test (with synonyms and
patterns) but has no entry in `get_normal_ranges`; on the text
`"rdw-cv 14"` its primary pattern matches with no units and no range
captured, the per-match processing drops the row (the `KeyError` from
the missing default is swallowed by the bare `except`), and the full
extractor returns no row at all — the claim's "never silently dropped
because a default is needed" fails. -/
theorem c6_counterexample :
    assoc add_standard_names "RDW" =
      some ["red cell distribution width", "rdw-cv", "rdw-sd",
            "red blood cell distribution width"] ∧
    assoc get_normal_ranges "RDW" = none ∧
    (finditerRE (primaryRE (synAltRE ((assoc add_standard_names "RDW").getD [])))
        (toLowerL (clean_ocr_text "rdw-cv 14".data))).map capsToDict =
      [⟨some "rdw-cv", some "14", none, none⟩] ∧
    processMatch add_standard_names get_normal_ranges "RDW"
      ⟨some "rdw-cv", some "14", none, none⟩ = none ∧
    extract_specialized "rdw-cv 14" = [] := by
  refine ⟨by decide, by decide, by decide, by decide, ?_⟩
  decide

/-- C6 (amended): for every catalog test that also has a normal-ranges
entry, a pattern match with a parseable numeric value always emits a
row; when no units were captured the row's units are the catalog's
default unit, and when no range was captured the row's reference range
is the catalog's `low-high` string. -/
theorem c6_defaults_when_catalogued
    (tid lo hi unit : String) (syns : List String)
    (hnr : assoc get_normal_ranges tid = some (lo, hi, unit))
    (hsn : assoc add_standard_names tid = some syns)
    (hne : syns ≠ [])
    (md : MatchDict) (vs : String) (val : ℚ)
    (hval : md.value = some vs) (hfloat : pyFloat vs.data = some val) :
    ∃ row, processMatch add_standard_names get_normal_ranges tid md = some row ∧
      row.value = val ∧
      (optStrFalsy md.units = true → row.units = unit) ∧
      (optStrFalsy md.range = true → row.refRange = lo ++ "-" ++ hi) := by
  have hvne : vs.isEmpty = false := by
    cases hv : vs.isEmpty
    · rfl
    · exfalso
      rw [String.isEmpty_iff] at hv
      subst hv
      rw [show pyFloat "".data = none from by decide] at hfloat
      exact absurd hfloat (by simp)
  rcases syns with _ | ⟨s0, rest⟩
  · exact absurd rfl hne
  unfold processMatch
  simp only [hsn, hval, hvne, hfloat, Bool.false_eq_true, if_false]
  split
  next heq =>
    exfalso
    split at heq <;> simp at heq
  next tn heq =>
    by_cases hu : optStrFalsy md.units = true
    · by_cases hr : optStrFalsy md.range = true
      · simp only [hu, hr, if_true, hnr, Option.map_some']
        exact ⟨_, rfl, rfl, fun _ => rfl, fun _ => rfl⟩
      · simp only [hu, if_true, hnr, Option.map_some', if_neg hr]
        rcases hmr : md.range with _ | rg
        · rw [hmr] at hr
          exact absurd rfl hr
        · rw [hmr] at hr
          exact ⟨_, rfl, rfl, fun _ => rfl, fun hc => absurd hc hr⟩
    · simp only [if_neg hu]
      rcases hmu : md.units with _ | u
      · rw [hmu] at hu
        exact absurd rfl hu
      · rw [hmu] at hu
        by_cases hr : optStrFalsy md.range = true
        · simp only [hr, if_true, hnr, Option.map_some']
          exact ⟨_, rfl, rfl, fun hc => absurd hc hu, fun _ => rfl⟩
        · simp only [if_neg hr]
          rcases hmr : md.range with _ | rg
          · rw [hmr] at hr
            exact absurd rfl hr
          · rw [hmr] at hr
            exact ⟨_, rfl, rfl, fun hc => absurd hc hu, fun hc => absurd hc hr⟩

/-- C6 witness: `HGB` is catalogued with range entry
`("13.5", "17.5", "g/dL")`; a match of `"hemoglobin"` at value `"14.2"`
with no units and no range emits a row with the default unit and the
default `"13.5-17.5"` range. -/
theorem c6_defaults_when_catalogued_witness :
    ∃ row, processMatch add_standard_names get_normal_ranges "HGB"
        ⟨some "hemoglobin", some "14.2", none, none⟩ = some row ∧
      row.value = 71/5 ∧
      (optStrFalsy (some "hemoglobin" : Option String) = true → row.units = "g/dL") ∧
      True := by
  obtain ⟨row, hrow, hval, hunits, hrange⟩ :=
    c6_defaults_when_catalogued "HGB" "13.5" "17.5" "g/dL"
      ["hemoglobin", "haemoglobin", "hgb", "hb", "hemoglobin concentration"]
      (by decide) (by decide) (by decide)
      ⟨some "hemoglobin", some "14.2", none, none⟩ "14.2" (71/5) rfl (by decide)
  exact ⟨row, hrow, hval, fun _ => hunits rfl, trivial⟩

/-- C7 counterexample: on a successful external call with zero valid
rows the interpreter returns `None` (absence) with the descriptive
message — not an empty table as the claim states; absence cannot be
distinguished from the hard-failure path by the table component, only by
the status string. -/
theorem c7_counterexample :
    gemini_interpret "" = (none, "No test data could be extracted by Gemini model.") ∧
    (gemini_interpret "").1 ≠ some [] := by
  decide

/-- C7 (amended): when zero valid rows are produced from the response
text the interpreter returns `None` together with the status
`"No test data could be extracted by Gemini model."`, and when at least
one row is produced it returns the table with `"Success"`; the
empty-result outcome is distinguished from a hard external failure by
the status string (the failure path also yields `None`, with an
error-description status). -/
theorem c7_empty_vs_failure (s : String) :
    (gemini_extract_rows s = [] →
      gemini_interpret s = (none, "No test data could be extracted by Gemini model.")) ∧
    (gemini_extract_rows s ≠ [] →
      gemini_interpret s = (some (gemini_extract_rows s), "Success")) := by
  unfold gemini_interpret
  constructor
  · intro h
    rw [h]
    rfl
  · intro h
    rw [if_neg]
    simp [List.isEmpty_iff, h]

/-- C7 witness: the empty response yields zero rows and the absence
outcome with the descriptive message. -/
theorem c7_empty_vs_failure_witness :
    gemini_interpret "" = (none, "No test data could be extracted by Gemini model.") :=
  (c7_empty_vs_failure "").1 (by decide)

/-- C10: on any input, the strict parser always overwrites the stored
`test_data` with its (possibly empty) result, while on zero rows the
tolerant parser returns a fresh empty table and leaves the stored
`test_data` unchanged. -/
theorem c10_state_effects (st : ParserState) (text : String) :
    (advanced_parse_report text = [] → advanced_parse_report_run st text = (st, [])) ∧
    (parse_report_run st text).1.test_data = some (parse_report text) := by
  constructor
  · intro h
    unfold advanced_parse_report_run
    rw [h]
    rfl
  · rfl

/-- C10 witness: on empty input the tolerant parser leaves a previously
stored table in place while the strict parser overwrites it with the
empty result. -/
theorem c10_state_effects_witness :
    advanced_parse_report_run ⟨some [⟨"Hemoglobin", 14, "g/dL", "N/A", "Normal"⟩]⟩ "" =
      (⟨some [⟨"Hemoglobin", 14, "g/dL", "N/A", "Normal"⟩]⟩, []) ∧
    (parse_report_run ⟨some [⟨"Hemoglobin", 14, "g/dL", "N/A", "Normal"⟩]⟩ "").1.test_data =
      some [] :=
  ⟨(c10_state_effects ⟨some [⟨"Hemoglobin", 14, "g/dL", "N/A", "Normal"⟩]⟩ "").1 (by decide),
   ((c10_state_effects ⟨some [⟨"Hemoglobin", 14, "g/dL", "N/A", "Normal"⟩]⟩ "").2).trans
     (by decide)⟩

/-- C9: the strict generic parser on OCR text that is exactly the line
`"Hemoglobin 14.2 g/dL (13.5-17.5)"` yields exactly one row:
Test `"Hemoglobin"`, Value 14.2 (the rational 71/5), Units `"g/dL"`,
Reference Range `"13.5-17.5"`, Status `"Normal"`. -/
theorem c9_scenario_a :
    parse_report "Hemoglobin 14.2 g/dL (13.5-17.5)" =
      [⟨"Hemoglobin", 71/5, "g/dL", "13.5-17.5", "Normal"⟩] := by
  decide

end BloodReport
